import Mathlib

/-!
# Verification of the High Tide platform-integration layer

Shallow embedding of `src/lib/secret_storage.py` and
`src/lib/windows_integration.py` (the credential store, the media-control
bridge, the notification service and the registry-backed registrars),
with theorems settling the spec's testable properties.

Conventions of the embedding:
* Python dictionaries whose keys and values are strings become association
  lists `List (String × String)`; every dictionary the modelled code builds
  has pairwise distinct keys, so first-match lookup agrees with Python.
* `json.dumps` / `json.loads` are modelled concretely for flat
  string-to-string objects, with Python's default separators
  (`", "` and `": "`) and escaping of the two characters that the
  round-trip forces (`"` and `\`); `str.encode("utf-16-le")` /
  `bytes.decode("utf-16-le")` are modelled byte-for-byte, surrogate
  pairs included.
* raising code returns `Except`; a `try/except` becomes a `match` on it.
* OS backends (Credential Manager, libsecret, the registry) become the
  explicit state they hold for the one fixed key the code touches.
-/

namespace HighTide

/-- A Python exception class raised by the modelled code paths. -/
inductive PyErr where
  | keyError
  | unicodeDecodeError
  | jsonDecodeError
  deriving DecidableEq, Repr

/-- A GLib error raised by a `gi` call (libsecret / DBus failure). -/
inductive GError where
  | dbusFailure
  deriving DecidableEq, Repr

/-! ## JSON for flat string-to-string objects (model of `json.dumps` / `json.loads`) -/

/-- Escape one character inside a JSON string literal: `"` and `\` get a
backslash, everything else is emitted as itself. -/
def escChar (c : Char) : List Char :=
  if c = '"' ∨ c = '\\' then ['\\', c] else [c]

/-- Escape every character of a string body. -/
def escStr : List Char → List Char
  | [] => []
  | c :: t => escChar c ++ escStr t

/-- Encode a JSON string literal: quote, escaped body, quote. -/
def encStr (s : List Char) : List Char :=
  '"' :: (escStr s ++ ['"'])

/-- Encode one `"key": "value"` member with Python's default `": "` separator. -/
def encPair (kv : List Char × List Char) : List Char :=
  encStr kv.1 ++ ':' :: ' ' :: encStr kv.2

/-- Encode the members of an object joined by Python's default `", "`. -/
def encItems : List (List Char × List Char) → List Char
  | [] => []
  | [kv] => encPair kv
  | kv :: t => encPair kv ++ ',' :: ' ' :: encItems t

/-- Encode a whole flat object: `{` members `}`. -/
def encObj (d : List (List Char × List Char)) : List Char :=
  '{' :: (encItems d ++ ['}'])

/-- Model of `json.dumps` on a flat string-to-string dictionary. -/
def jsonDumps (d : List (String × String)) : String :=
  ⟨encObj (d.map fun kv => (kv.1.data, kv.2.data))⟩

/-- Consume one expected character from the front of the input. -/
def expect (c : Char) : List Char → Option (List Char)
  | [] => none
  | c2 :: rest => if c2 = c then some rest else none

/-- Parse a JSON string body up to the closing quote, undoing escapes;
returns the body and the unconsumed tail. -/
def parseStr : List Char → Option (List Char × List Char)
  | [] => none
  | c :: rest =>
    if c = '\\' then
      match rest with
      | [] => none
      | c2 :: rest2 => (parseStr rest2).map fun p => (c2 :: p.1, p.2)
    else if c = '"' then some ([], rest)
    else (parseStr rest).map fun p => (c :: p.1, p.2)

/-- Parse one `"key": "value"` member. -/
def parsePair (cs : List Char) : Option ((List Char × List Char) × List Char) := do
  let r1 ← expect '"' cs
  let (k, r2) ← parseStr r1
  let r3 ← expect ':' r2
  let r4 ← expect ' ' r3
  let r5 ← expect '"' r4
  let (v, r6) ← parseStr r5
  pure ((k, v), r6)

/-- Parse a nonempty `", "`-separated member list, with fuel bounding the
number of members. -/
def parseItems : Nat → List Char → Option (List (List Char × List Char) × List Char)
  | 0, _ => none
  | fuel + 1, cs =>
    match parsePair cs with
    | none => none
    | some (kv, rest) =>
      match expect ',' rest with
      | none => some ([kv], rest)
      | some rest2 =>
        match expect ' ' rest2 with
        | none => none
        | some rest3 =>
          match parseItems fuel rest3 with
          | none => none
          | some (l, r) => some (kv :: l, r)

/-- Parse a whole flat object. -/
def parseObj (cs : List Char) : Option (List (List Char × List Char)) := do
  let r1 ← expect '{' cs
  if r1 = ['}'] then pure []
  else
    match parseItems r1.length r1 with
    | some (l, rest) => if rest = ['}'] then some l else none
    | none => none

/-- Model of `json.loads` restricted to flat string-to-string objects; any
other payload is a decode failure. -/
def jsonLoads (s : String) : Option (List (String × String)) :=
  (parseObj s.data).map fun l => l.map fun kv => (⟨kv.1⟩, ⟨kv.2⟩)

/-! ## UTF-16LE (model of `str.encode("utf-16-le")` / `bytes.decode("utf-16-le")`) -/

/-- Encode one character as its UTF-16LE bytes: two bytes for a BMP code
point, four (a surrogate pair) above `0xFFFF`. -/
def utf16leChar (c : Char) : List Nat :=
  let n := c.toNat
  if n < 0x10000 then [n % 256, n / 256]
  else
    [(0xD800 + (n - 0x10000) / 0x400) % 256,
     (0xD800 + (n - 0x10000) / 0x400) / 256,
     (0xDC00 + (n - 0x10000) % 0x400) % 256,
     (0xDC00 + (n - 0x10000) % 0x400) / 256]

/-- Encode a character list as UTF-16LE bytes. -/
def utf16leList : List Char → List Nat
  | [] => []
  | c :: t => utf16leChar c ++ utf16leList t

/-- Model of `str.encode("utf-16-le")`. -/
def utf16le (s : String) : List Nat :=
  utf16leList s.data

/-- Decode UTF-16LE bytes back to characters; odd length, lone surrogates
and truncated pairs fail (Python raises `UnicodeDecodeError`). -/
def decodeUtf16leList : List Nat → Option (List Char)
  | [] => some []
  | [_] => none
  | b0 :: b1 :: rest =>
    let u := b0 + 256 * b1
    if 0xD800 ≤ u ∧ u ≤ 0xDBFF then
      match rest with
      | b2 :: b3 :: rest2 =>
        let v := b2 + 256 * b3
        if 0xDC00 ≤ v ∧ v ≤ 0xDFFF then
          (decodeUtf16leList rest2).map fun cs =>
            Char.ofNat (0x10000 + (u - 0xD800) * 0x400 + (v - 0xDC00)) :: cs
        else none
      | _ => none
    else if 0xDC00 ≤ u ∧ u ≤ 0xDFFF then none
    else (decodeUtf16leList rest).map fun cs => Char.ofNat u :: cs

/-- Model of `bytes.decode("utf-16-le")`. -/
def decodeUtf16le (bs : List Nat) : Option String :=
  (decodeUtf16leList bs).map fun cs => ⟨cs⟩

/-! ## `SecretStore` (`src/lib/secret_storage.py`) -/

/-- `SecretStore.token_dictionary`: a flat string-to-string dictionary. -/
abbrev TokenDict := List (String × String)

/-- Python `d[k]` lookup on a string-keyed dictionary (first match; every
dictionary the modelled code builds has distinct keys). -/
def dictFind (d : TokenDict) (k : String) : Option String :=
  match d with
  | [] => none
  | (k2, v) :: t => if k2 = k then some v else dictFind t k

/-- `SecretStore.has_credentials`: `all(key in self.token_dictionary for key
in ["token-type", "access-token", "refresh-token"])`. -/
def has_credentials (d : TokenDict) : Bool :=
  (["token-type", "access-token", "refresh-token"].all
    fun k => (dictFind d k).isSome)

/-- `SecretStore.get`: the three `self.token_dictionary[...]` subscripts;
a missing key raises `KeyError`. -/
def get (d : TokenDict) : Except PyErr (String × String × String) :=
  match dictFind d "token-type" with
  | none => .error .keyError
  | some a =>
    match dictFind d "access-token" with
    | none => .error .keyError
    | some b =>
      match dictFind d "refresh-token" with
      | none => .error .keyError
      | some c => .ok (a, b, c)

/-- The four string fields `save()` reads from the live `tidalapi.Session`.
`expiry_time` is passed through `str(...)`; the claims under test restrict
it to a string, on which `str` is the identity, so it is carried as the
resulting string here. -/
structure Session where
  token_type : String
  access_token : String
  refresh_token : String
  expiry_time : String

/-- The four-key dictionary literal that `save()` assigns to
`self.token_dictionary`. -/
def saveDict (s : Session) : TokenDict :=
  [("token-type", s.token_type),
   ("access-token", s.access_token),
   ("refresh-token", s.refresh_token),
   ("expiry-time", s.expiry_time)]

/-- Windows Credential Manager state for the fixed target `"high-tide-login"`:
the stored credential blob, if the entry exists. -/
abbrev WinVault := Option (List Nat)

/-- `SecretStore._windows_write_credential`: stores the UTF-16LE bytes of the
password string as the credential blob (`CredWriteW`, modelled as
succeeding); returns the API's boolean. -/
def windows_write_credential (password : String) (v : WinVault) : Bool × WinVault :=
  (true, some (utf16le password))

/-- `SecretStore._windows_read_credential`: `CredReadW` misses (`none`) or
yields the blob; an empty blob returns `None`, otherwise the bytes are
decoded as UTF-16LE, which can raise `UnicodeDecodeError`. -/
def windows_read_credential (v : WinVault) : Except PyErr (Option String) :=
  match v with
  | none => .ok none
  | some blob =>
    if blob.length > 0 then
      match decodeUtf16le blob with
      | some s => .ok (some s)
      | none => .error .unicodeDecodeError
    else .ok none

/-- The body of the `try` in `SecretStore._init_windows`: read the
credential; a truthy password is parsed as JSON (raising
`json.JSONDecodeError` on malformed input) and installed, anything falsy
leaves the dictionary empty. -/
def init_windows_body (v : WinVault) : Except PyErr TokenDict :=
  match windows_read_credential v with
  | .error e => .error e
  | .ok none => .ok []
  | .ok (some pw) =>
    if pw = "" then .ok []
    else
      match jsonLoads pw with
      | some d => .ok d
      | none => .error .jsonDecodeError

/-- `SecretStore._init_windows`: the whole body runs inside `try`; any
exception is logged and the dictionary reset to empty — never propagated. -/
def init_windows (v : WinVault) : TokenDict :=
  match init_windows_body v with
  | .ok d => d
  | .error _ => []

/-- `SecretStore._init_linux`: the backend interaction (the unlock dance and
`Secret.password_lookup_sync`, which can raise a `GError`) happens BEFORE
the `try`; only the `json.loads` of a truthy password is guarded, so a
raising lookup propagates out of the constructor while a decode failure
resets the dictionary to empty. -/
def init_linux (lookup : Except GError (Option String)) : Except GError TokenDict :=
  match lookup with
  | .error e => .error e
  | .ok none => .ok []
  | .ok (some pw) =>
    .ok (if pw = "" then []
         else
           match jsonLoads pw with
           | some d => d
           | none => [])

/-- In-memory plus backend state of a Windows-variant `SecretStore`. -/
structure WinState where
  token_dictionary : TokenDict
  vault : WinVault

/-- `SecretStore.save` on Windows: build the four-key dictionary from the
live session, `json.dumps` it, write it through
`_windows_write_credential`. -/
def save_windows (sess : Session) (st : WinState) : WinState :=
  { token_dictionary := saveDict sess,
    vault := (windows_write_credential (jsonDumps (saveDict sess)) st.vault).2 }

/-- `SecretStore.save` on Linux: the string `Secret.password_store_sync`
persists is the UTF-8 JSON payload itself. -/
def save_linux_stored (sess : Session) : Option String :=
  some (jsonDumps (saveDict sess))

/-- `SecretStore._windows_delete_credential`: `CredDeleteW` removes the
entry; on an already-absent entry it returns `FALSE` without raising. The
caller (`clear`) ignores the boolean. -/
def windows_delete_credential (v : WinVault) : Bool × WinVault :=
  (v.isSome, none)

/-- `SecretStore.clear` on Windows: `token_dictionary.clear()` then delete
the backend entry; total — no exception path. -/
def clear_windows (st : WinState) : WinState :=
  { token_dictionary := [],
    vault := (windows_delete_credential st.vault).2 }

/-- `SecretStore.clear` on Linux: `Secret.password_clear_sync` removes the
stored password; clearing an absent entry just returns `False`. -/
def clear_linux (keyring : Option String) : Option String :=
  none

/-! ## `WindowsMediaControls` (`src/lib/windows_integration.py`) -/

/-- The two-valued native status `update_playback_status` maps to. -/
inductive MediaPlaybackStatus where
  | playing
  | paused
  deriving DecidableEq, Repr

/-- The slice of the native SMTC handle the modelled methods touch. -/
structure SmtcModel where
  playback_status : Option MediaPlaybackStatus
  deriving DecidableEq, Repr

/-- The slice of the native display updater the modelled methods touch. -/
structure DisplayUpdaterModel where
  title : String
  artist : String
  album_title : String
  deriving DecidableEq, Repr

/-- `WindowsMediaControls` instance state (the fields the claims reach). -/
structure MediaControlsState where
  initialized : Bool
  smtc : Option SmtcModel
  display_updater : Option DisplayUpdaterModel
  current_title : String
  current_artist : String
  current_album : String
  deriving DecidableEq, Repr

/-- The state `WindowsMediaControls.__init__` builds: everything unset. -/
def mediaControlsInit : MediaControlsState :=
  { initialized := false, smtc := none, display_updater := none,
    current_title := "", current_artist := "", current_album := "" }

/-- `WindowsMediaControls.initialize`: returns `False` without winsdk;
on native setup success returns `True` with the handles acquired and
`_initialized` set; when native setup raises, the `except` arm logs, sets
`_initialized = False` and falls off the end — the Python return value is
`None`, modelled as `Option.none` in `Option Bool`. -/
def initializeMediaControls (hasWinsdk : Bool) (nativeOk : Bool) (st : MediaControlsState) :
    Option Bool × MediaControlsState :=
  if ¬hasWinsdk then (some false, st)
  else if nativeOk then
    (some true,
     { st with initialized := true,
               smtc := some { playback_status := none },
               display_updater := some { title := "", artist := "", album_title := "" } })
  else (none, { st with initialized := false })

/-- `WindowsMediaControls.update_playback_status`: guarded by
`if not self._initialized or not self._smtc: return`; otherwise sets the
two-valued native status. -/
def update_playback_status (st : MediaControlsState) (is_playing : Bool) :
    MediaControlsState :=
  if ¬st.initialized ∨ st.smtc = none then st
  else
    match st.smtc with
    | none => st
    | some sm =>
      { st with smtc := some { sm with
          playback_status := some (if is_playing then .playing else .paused) } }

/-- `WindowsMediaControls.update_metadata`: guarded by
`if not self._initialized or not self._display_updater: return`; otherwise
records the current track fields and pushes them to the display updater
(the thumbnail, when supplied, is resolved on a fire-and-forget background
worker and touches none of the fields modelled here). -/
def update_metadata (st : MediaControlsState)
    (title artist album thumbnail_path : String) : MediaControlsState :=
  if ¬st.initialized ∨ st.display_updater = none then st
  else
    { st with
      current_title := title, current_artist := artist, current_album := album,
      display_updater := some { title := title, artist := artist, album_title := album } }

/-! ## `WindowsNotifications` (`src/lib/windows_integration.py`) -/

/-- One dispatched toast: the `title=` and `msg=` handed to the background
`show_toast` thread at the moment `threading.Thread(...).start()` runs. -/
structure Toast where
  title : String
  msg : String
  deriving DecidableEq, Repr

/-- `WindowsNotifications` state: the enabled flag, whether a notifier was
constructed, the last shown track id, and the dispatch history. -/
structure NotifState where
  enabled : Bool
  has_notifier : Bool
  last_track_id : Option String
  dispatched : List Toast
  deriving DecidableEq, Repr

/-- Python truthiness of an `Optional[str]`: `None` and `""` are falsy. -/
def pyTruthyOpt : Option String → Bool
  | none => false
  | some s => s ≠ ""

/-- `WindowsNotifications.show_now_playing`: bail out when disabled or
without a notifier; suppress a truthy `track_id` equal to the last one;
otherwise record the id, build `msg = artist (" • " album)?` and start the
background display thread, returning `True`. -/
def show_now_playing (st : NotifState) (title artist album : String)
    (track_id : Option String) : Bool × NotifState :=
  if ¬st.enabled ∨ ¬st.has_notifier then (false, st)
  else if pyTruthyOpt track_id ∧ track_id = st.last_track_id then (false, st)
  else
    let message := artist ++ (if album ≠ "" then " • " ++ album else "")
    (true,
     { st with last_track_id := track_id,
               dispatched := st.dispatched ++ [{ title := title, msg := message }] })

/-! ## Startup registration (`src/lib/windows_integration.py`) -/

/-- The values of the fixed user-scoped `Run` registry key, as an
association list (the key itself is present on any Windows install). -/
abbrev RegRun := List (String × String)

/-- Delete every value named `name` (registry value names are unique, so at
most one). -/
def regRemove (reg : RegRun) (name : String) : RegRun :=
  match reg with
  | [] => []
  | (k, v) :: t => if k = name then regRemove t name else (k, v) :: regRemove t name

/-- `winreg.SetValueEx`: install `name = v`, replacing any previous value. -/
def regSet (reg : RegRun) (name v : String) : RegRun :=
  (name, v) :: regRemove reg name

/-- The process environment `get_startup_command` consults: `sys.frozen`,
`sys.executable`, and `os.path.abspath(sys.argv[0])` with its existence. -/
structure SysEnv where
  frozen : Bool
  executable : String
  argv0_abspath : String
  argv0_exists : Bool

/-- `get_startup_command`: a quoted executable when frozen; interpreter plus
script, each quoted, for a script run; `None` when neither resolves. -/
def get_startup_command (e : SysEnv) : Option String :=
  if e.frozen then some ("\"" ++ e.executable ++ "\"")
  else if e.argv0_exists then
    some ("\"" ++ e.executable ++ "\" \"" ++ e.argv0_abspath ++ "\"")
  else none

/-- `is_startup_enabled`: `False` off Windows; otherwise whether
`QueryValueEx` finds the `"HighTide"` value under the `Run` key. -/
def is_startup_enabled (isWindows : Bool) (reg : RegRun) : Bool :=
  if ¬isWindows then false
  else (dictFind reg "HighTide").isSome

/-- `set_startup_enabled`: `False` off Windows. Enabling writes the startup
command as the `"HighTide"` value (or returns `False` when the command
cannot be determined); disabling deletes the value, `pass`-ing the
`FileNotFoundError` of an already-absent value, and returns `True`. -/
def set_startup_enabled (isWindows : Bool) (e : SysEnv) (enabled : Bool)
    (reg : RegRun) : Bool × RegRun :=
  if ¬isWindows then (false, reg)
  else if enabled then
    match get_startup_command e with
    | some cmd => (true, regSet reg "HighTide" cmd)
    | none => (false, reg)
  else (true, regRemove reg "HighTide")

/-! ## Round-trip lemmas for the JSON model -/

theorem parseStr_escStr (s r : List Char) :
    parseStr (escStr s ++ '"' :: r) = some (s, r) := by
  induction s with
  | nil =>
    show parseStr ('"' :: r) = some ([], r)
    rw [parseStr.eq_def]
    simp
  | cons c t ih =>
    by_cases hc : c = '"' ∨ c = '\\'
    · simp only [escStr, escChar, if_pos hc, List.cons_append, List.append_assoc,
        List.nil_append]
      rw [parseStr.eq_def]
      simp [ih]
    · push_neg at hc
      simp only [escStr, escChar, if_neg (by tauto : ¬(c = '"' ∨ c = '\\')),
        List.cons_append, List.nil_append]
      rw [parseStr.eq_def]
      simp [hc.1, hc.2, ih]

theorem parsePair_encPair (kv : List Char × List Char) (r : List Char) :
    parsePair (encPair kv ++ r) = some (kv, r) := by
  obtain ⟨k, v⟩ := kv
  have h : encPair (k, v) ++ r =
      '"' :: (escStr k ++ '"' :: (':' :: ' ' :: '"' :: (escStr v ++ '"' :: r))) := by
    simp [encPair, encStr]
  rw [h]
  unfold parsePair
  simp [expect, parseStr_escStr]

theorem parseItems_encItems (d : List (List Char × List Char)) :
    ∀ fuel, d ≠ [] → d.length ≤ fuel →
      parseItems fuel (encItems d ++ ['}']) = some (d, ['}']) := by
  induction d with
  | nil => intro fuel hne; exact absurd rfl hne
  | cons kv t ih =>
    intro fuel hne hfuel
    obtain ⟨f, rfl⟩ : ∃ f, fuel = f + 1 := ⟨fuel - 1, by simp at hfuel; omega⟩
    cases t with
    | nil =>
      simp only [encItems]
      rw [parseItems.eq_def]
      simp [parsePair_encPair, expect]
    | cons kv2 t2 =>
      have h : encItems (kv :: kv2 :: t2) ++ ['}'] =
          encPair kv ++ ',' :: ' ' :: (encItems (kv2 :: t2) ++ ['}']) := by
        simp [encItems]
      rw [h, parseItems.eq_def]
      have hrec := ih f (by simp) (by simp at hfuel ⊢; omega)
      simp [parsePair_encPair, expect, hrec]

theorem encStr_length (s : List Char) : (encStr s).length = (escStr s).length + 2 := by
  simp [encStr]

theorem le_length_encItems (d : List (List Char × List Char)) :
    d.length ≤ (encItems d).length := by
  induction d with
  | nil => simp [encItems]
  | cons kv t ih =>
    cases t with
    | nil =>
      simp only [encItems, encPair, List.length_append, List.length_cons, encStr_length,
        List.length_nil]
      omega
    | cons kv2 t2 =>
      have h : encItems (kv :: kv2 :: t2) =
          encPair kv ++ ',' :: ' ' :: encItems (kv2 :: t2) := by
        simp [encItems]
      rw [h]
      simp only [List.length_append, List.length_cons]
      have hp : 0 < (encPair kv).length := by
        simp [encPair, encStr_length]
      simp only [List.length_cons] at ih ⊢
      omega

theorem parseObj_encObj (d : List (List Char × List Char)) :
    parseObj (encObj d) = some d := by
  cases d with
  | nil => rfl
  | cons kv t =>
    have hlen : 1 ≤ (encItems (kv :: t)).length := by
      have := le_length_encItems (kv :: t)
      simp only [List.length_cons] at this
      omega
    have hne : encItems (kv :: t) ++ ['}'] ≠ ['}'] := by
      intro hx
      have := congrArg List.length hx
      simp only [List.length_append, List.length_cons, List.length_nil] at this
      omega
    have hitems := parseItems_encItems (kv :: t) ((encItems (kv :: t)).length + 1)
      (by simp)
      (by have := le_length_encItems (kv :: t); simp only [List.length_cons] at this ⊢; omega)
    unfold parseObj
    simp [encObj, expect, hne, hitems]

theorem map_mk_map_data (d : List (String × String)) :
    ((d.map fun kv => (kv.1.data, kv.2.data)).map
      fun kv => ((⟨kv.1⟩ : String), (⟨kv.2⟩ : String))) = d := by
  induction d with
  | nil => rfl
  | cons kv t ih =>
    obtain ⟨a, b⟩ := kv
    cases a
    cases b
    simp only [List.map_cons, ih]

theorem jsonLoads_jsonDumps (d : List (String × String)) :
    jsonLoads (jsonDumps d) = some d := by
  show (parseObj (encObj (d.map fun kv => (kv.1.data, kv.2.data)))).map _ = some d
  rw [parseObj_encObj, Option.map_some']
  exact congrArg some (map_mk_map_data d)

/-! ## Round-trip lemmas for the UTF-16LE model -/

theorem decodeUtf16leList_utf16leList (s : List Char) :
    decodeUtf16leList (utf16leList s) = some s := by
  induction s with
  | nil => rfl
  | cons c t ih =>
    have hvalid : c.toNat < 0xd800 ∨ (0xdfff < c.toNat ∧ c.toNat < 0x110000) := c.valid
    by_cases hbmp : c.toNat < 0x10000
    · have h : utf16leList (c :: t) =
          c.toNat % 256 :: c.toNat / 256 :: utf16leList t := by
        simp [utf16leList, utf16leChar, if_pos hbmp]
      rw [h, decodeUtf16leList.eq_def]
      have hu : c.toNat % 256 + 256 * (c.toNat / 256) = c.toNat := Nat.mod_add_div _ _
      simp only [hu]
      rw [if_neg (by omega), if_neg (by omega)]
      simp [ih, Char.ofNat_toNat]
    · have hrange : 0x10000 ≤ c.toNat ∧ c.toNat < 0x110000 := by omega
      set n := c.toNat with hn
      set hi := 0xD800 + (n - 0x10000) / 0x400 with hhi
      set lo := 0xDC00 + (n - 0x10000) % 0x400 with hlo
      have hdiv : (n - 0x10000) / 0x400 < 0x400 := by omega
      have hmod : (n - 0x10000) % 0x400 < 0x400 := by omega
      have h : utf16leList (c :: t) =
          hi % 256 :: hi / 256 :: (lo % 256 :: lo / 256 :: utf16leList t) := by
        simp [utf16leList, utf16leChar, if_neg hbmp, ← hn, ← hhi, ← hlo]
      rw [h, decodeUtf16leList.eq_def]
      have hu : hi % 256 + 256 * (hi / 256) = hi := Nat.mod_add_div _ _
      have hv : lo % 256 + 256 * (lo / 256) = lo := Nat.mod_add_div _ _
      simp only [hu, hv]
      rw [if_pos (by omega : (0xD800 : Nat) ≤ hi ∧ hi ≤ 0xDBFF)]
      rw [if_pos (by omega : (0xDC00 : Nat) ≤ lo ∧ lo ≤ 0xDFFF)]
      have hchar : 0x10000 + (hi - 0xD800) * 0x400 + (lo - 0xDC00) = n := by omega
      simp only [hchar, ih, Option.map_some']
      rw [hn]
      simp [Char.ofNat_toNat]

theorem decodeUtf16le_utf16le (s : String) :
    decodeUtf16le (utf16le s) = some s := by
  cases s with
  | mk l => simp [decodeUtf16le, utf16le, decodeUtf16leList_utf16leList]

/-! ## Helper lemmas about the store, registry and notification models -/

theorem utf16leList_cons_length_pos (c : Char) (t : List Char) :
    0 < (utf16leList (c :: t)).length := by
  have h : utf16leList (c :: t) = utf16leChar c ++ utf16leList t := rfl
  rw [h, List.length_append]
  have hc : 0 < (utf16leChar c).length := by
    unfold utf16leChar
    by_cases hb : c.toNat < 0x10000 <;> simp [hb]
  omega

theorem jsonDumps_data (d : List (String × String)) :
    (jsonDumps d).data =
      '{' :: (encItems (d.map fun kv => (kv.1.data, kv.2.data)) ++ ['}']) :=
  rfl

theorem jsonDumps_ne_empty (d : List (String × String)) : jsonDumps d ≠ "" := by
  intro h
  have h2 : (jsonDumps d).data = "".data := congrArg String.data h
  rw [jsonDumps_data] at h2
  simp at h2

theorem windows_read_credential_utf16 (s : String) (hs : s.data ≠ []) :
    windows_read_credential (some (utf16le s)) = .ok (some s) := by
  have hpos : 0 < (utf16le s).length := by
    cases hd : s.data with
    | nil => exact absurd hd hs
    | cons c t =>
      have hx : utf16le s = utf16leList (c :: t) := by rw [utf16le, hd]
      rw [hx]
      exact utf16leList_cons_length_pos c t
  simp only [windows_read_credential]
  rw [decodeUtf16le_utf16le, if_pos hpos]

theorem init_windows_saved (d : List (String × String)) :
    init_windows (some (utf16le (jsonDumps d))) = d := by
  unfold init_windows init_windows_body
  rw [windows_read_credential_utf16 _ (by rw [jsonDumps_data]; simp)]
  simp [jsonDumps_ne_empty, jsonLoads_jsonDumps]

theorem hasCreds_iff (d : TokenDict) :
    has_credentials d = true ↔
      ((dictFind d "token-type").isSome = true ∧
        (dictFind d "access-token").isSome = true ∧
        (dictFind d "refresh-token").isSome = true) := by
  simp [has_credentials]

theorem dictFind_regRemove (reg : RegRun) (name : String) :
    dictFind (regRemove reg name) name = none := by
  induction reg with
  | nil => rfl
  | cons kv t ih =>
    obtain ⟨k, v⟩ := kv
    by_cases hk : k = name
    · simp [regRemove, hk, ih]
    · simp [regRemove, hk, dictFind, ih]

theorem set_startup_disable (e : SysEnv) (reg : RegRun) :
    set_startup_enabled true e false reg = (true, regRemove reg "HighTide") := by
  simp [set_startup_enabled]

theorem show_now_playing_dispatch (st : NotifState) (title artist album : String)
    (tid : Option String) (hen : st.enabled = true) (hnot : st.has_notifier = true)
    (hskip : ¬(pyTruthyOpt tid = true ∧ tid = st.last_track_id)) :
    show_now_playing st title artist album tid =
      (true, NotifState.mk st.enabled st.has_notifier tid
        (st.dispatched ++
          [Toast.mk title (artist ++ (if album ≠ "" then " • " ++ album else ""))])) := by
  unfold show_now_playing
  rw [if_neg (by simp [hen, hnot]), if_neg hskip]

theorem show_now_playing_suppress (st : NotifState) (title artist album : String)
    (tid : Option String) (h : pyTruthyOpt tid = true ∧ tid = st.last_track_id) :
    show_now_playing st title artist album tid = (false, st) := by
  unfold show_now_playing
  by_cases hb : ¬st.enabled ∨ ¬st.has_notifier
  · rw [if_pos hb]
  · rw [if_neg hb, if_pos h]

/-! ## Claims -/

/-- C1: Round-trip persistence — for any session whose four fields are
strings, `save()` followed by constructing a fresh `SecretStore` against
the same backend state yields a bundle equal to the saved four-key
dictionary (shown for both backend variants), so `has_credentials()` is
true and `get()` returns the saved `(token_type, access_token,
refresh_token)`. -/
theorem save_roundtrip (sess : Session) (st : WinState) :
    init_windows (save_windows sess st).vault = saveDict sess ∧
    init_linux (Except.ok (save_linux_stored sess)) = Except.ok (saveDict sess) ∧
    has_credentials (saveDict sess) = true ∧
    get (saveDict sess) =
      Except.ok (sess.token_type, sess.access_token, sess.refresh_token) := by
  refine ⟨?_, ?_, rfl, rfl⟩
  · exact init_windows_saved (saveDict sess)
  · have hstep : init_linux (Except.ok (save_linux_stored sess)) =
        Except.ok (if jsonDumps (saveDict sess) = "" then []
          else
            match jsonLoads (jsonDumps (saveDict sess)) with
            | some d => d
            | none => []) := rfl
    rw [hstep, if_neg (jsonDumps_ne_empty _), jsonLoads_jsonDumps]

/-- C2 counterexample: the claim says construction never raises for every
backend state in both variants, but in the secret-service variant a
failing backend lookup is raised before the `try` and propagates out of
the constructor. -/
theorem init_linux_lookup_raises :
    init_linux (Except.error GError.dbusFailure) = Except.error GError.dbusFailure :=
  rfl

/-- C2 (amended): the native-vault variant never raises — any read or
decode failure leaves the bundle empty; the secret-service variant never
raises once the backend lookup itself returns, and a decode failure of a
returned password leaves the bundle empty — but a raising lookup
propagates unchanged out of the constructor. -/
theorem init_failure_containment :
    (∀ (v : WinVault) (e : PyErr), init_windows_body v = Except.error e →
      init_windows v = []) ∧
    (∀ pw : String, jsonLoads pw = none →
      init_linux (Except.ok (some pw)) = Except.ok []) ∧
    (∀ r : Option String, ∃ d, init_linux (Except.ok r) = Except.ok d) ∧
    (∀ e : GError, init_linux (Except.error e) = Except.error e) := by
  refine ⟨?_, ?_, ?_, fun e => rfl⟩
  · intro v e h
    unfold init_windows
    rw [h]
  · intro pw hpw
    have hstep : init_linux (Except.ok (some pw)) =
        Except.ok (if pw = "" then []
          else
            match jsonLoads pw with
            | some d => d
            | none => []) := rfl
    rw [hstep, hpw]
    by_cases h0 : pw = ""
    · rw [if_pos h0]
    · rw [if_neg h0]
  · intro r
    cases r with
    | none => exact ⟨[], rfl⟩
    | some pw => exact ⟨_, rfl⟩

/-- C2 witness: the containment theorem applied at a corrupt vault blob (a
lone surrogate byte pair), a malformed secret-service payload — whose
decode failure demonstrably resets the bundle to empty — and a raising
lookup. -/
theorem init_failure_containment_witness :
    init_windows (some [0, 216]) = [] ∧
    init_linux (Except.ok (some "not json")) = Except.ok [] ∧
    (∃ d, init_linux (Except.ok (some "not json")) = Except.ok d) ∧
    init_linux (Except.error GError.dbusFailure) = Except.error GError.dbusFailure :=
  ⟨init_failure_containment.1 (some [0, 216]) PyErr.unicodeDecodeError rfl,
   init_failure_containment.2.1 "not json" rfl,
   init_failure_containment.2.2.1 (some "not json"),
   init_failure_containment.2.2.2 GError.dbusFailure⟩

/-- C3: `has_credentials()` is true iff all three required keys are
present, is false whenever any one of them is missing, and never inspects
the expiry-time entry. -/
theorem has_credentials_spec :
    (∀ d : TokenDict, has_credentials d = true ↔
      ((dictFind d "token-type").isSome = true ∧
        (dictFind d "access-token").isSome = true ∧
        (dictFind d "refresh-token").isSome = true)) ∧
    (∀ d : TokenDict,
      (dictFind d "token-type" = none ∨ dictFind d "access-token" = none ∨
        dictFind d "refresh-token" = none) → has_credentials d = false) ∧
    (∀ (d : TokenDict) (v : String),
      has_credentials (("expiry-time", v) :: d) = has_credentials d) := by
  refine ⟨hasCreds_iff, ?_, ?_⟩
  · intro d h
    cases hcd : has_credentials d with
    | false => rfl
    | true =>
      exfalso
      obtain ⟨h1, h2, h3⟩ := (hasCreds_iff d).mp hcd
      rcases h with h0 | h0 | h0
      · rw [h0] at h1
        simp at h1
      · rw [h0] at h2
        simp at h2
      · rw [h0] at h3
        simp at h3
  · intro d v
    have h1 : dictFind (("expiry-time", v) :: d) "token-type" =
        dictFind d "token-type" := by
      rw [dictFind, if_neg (by decide)]
    have h2 : dictFind (("expiry-time", v) :: d) "access-token" =
        dictFind d "access-token" := by
      rw [dictFind, if_neg (by decide)]
    have h3 : dictFind (("expiry-time", v) :: d) "refresh-token" =
        dictFind d "refresh-token" := by
      rw [dictFind, if_neg (by decide)]
    simp [has_credentials, h1, h2, h3]

/-- C3 witness: the specification applied at concrete bundles — a full
bundle, a bundle missing the access token, and an expiry-only extension. -/
theorem has_credentials_spec_witness :
    ((dictFind [("token-type", "t"), ("access-token", "a"), ("refresh-token", "r")]
        "token-type").isSome = true ∧
      (dictFind [("token-type", "t"), ("access-token", "a"), ("refresh-token", "r")]
        "access-token").isSome = true ∧
      (dictFind [("token-type", "t"), ("access-token", "a"), ("refresh-token", "r")]
        "refresh-token").isSome = true) ∧
    has_credentials [("token-type", "t")] = false ∧
    has_credentials (("expiry-time", "x") :: [("token-type", "t")]) =
      has_credentials [("token-type", "t")] :=
  ⟨(has_credentials_spec.1
      [("token-type", "t"), ("access-token", "a"), ("refresh-token", "r")]).mp (by decide),
   has_credentials_spec.2.1 [("token-type", "t")] (Or.inr (Or.inl (by decide))),
   has_credentials_spec.2.2 [("token-type", "t")] "x"⟩

/-- C4: under the precondition `has_credentials()`, `get()` returns the
three bundle entries without raising; on the empty bundle it raises
`KeyError` (a distinct, propagated error, unlike the logged-and-swallowed
recoverable class). -/
theorem get_spec :
    (∀ d : TokenDict, has_credentials d = true →
      ∃ a b c, dictFind d "token-type" = some a ∧
        dictFind d "access-token" = some b ∧
        dictFind d "refresh-token" = some c ∧
        get d = Except.ok (a, b, c)) ∧
    get [] = Except.error PyErr.keyError := by
  refine ⟨?_, rfl⟩
  intro d h
  obtain ⟨h1, h2, h3⟩ := (hasCreds_iff d).mp h
  obtain ⟨a, ha⟩ := Option.isSome_iff_exists.mp h1
  obtain ⟨b, hb⟩ := Option.isSome_iff_exists.mp h2
  obtain ⟨c, hc⟩ := Option.isSome_iff_exists.mp h3
  refine ⟨a, b, c, ha, hb, hc, ?_⟩
  unfold get
  rw [ha, hb, hc]

/-- C4 witness: `get` evaluated on a concrete full bundle and the empty
bundle. -/
theorem get_spec_witness :
    (∃ a b c,
      dictFind [("token-type", "t"), ("access-token", "a"), ("refresh-token", "r")]
        "token-type" = some a ∧
      dictFind [("token-type", "t"), ("access-token", "a"), ("refresh-token", "r")]
        "access-token" = some b ∧
      dictFind [("token-type", "t"), ("access-token", "a"), ("refresh-token", "r")]
        "refresh-token" = some c ∧
      get [("token-type", "t"), ("access-token", "a"), ("refresh-token", "r")] =
        Except.ok (a, b, c)) ∧
    get [] = Except.error PyErr.keyError :=
  ⟨get_spec.1 [("token-type", "t"), ("access-token", "a"), ("refresh-token", "r")]
      (by decide),
   get_spec.2⟩

/-- C5: `clear()` is idempotent and total — after one `clear()` the bundle
has no credentials and a fresh store loaded from the same backend reports
none either; a second `clear()`, with both the bundle and the backend
entry already absent, is the same total function application (the
underlying delete reports `FALSE` for an absent entry instead of
raising). -/
theorem clear_spec :
    (∀ st : WinState, has_credentials (clear_windows st).token_dictionary = false) ∧
    (∀ st : WinState, init_windows (clear_windows st).vault = []) ∧
    (∀ st : WinState, has_credentials (init_windows (clear_windows st).vault) = false) ∧
    (∀ st : WinState, clear_windows (clear_windows st) = clear_windows st) ∧
    (windows_delete_credential (none : WinVault)).1 = false ∧
    (∀ ker : Option String, init_linux (Except.ok (clear_linux ker)) = Except.ok []) ∧
    (∀ ker : Option String, clear_linux (clear_linux ker) = clear_linux ker) :=
  ⟨fun _ => rfl, fun _ => rfl, fun _ => rfl, fun _ => rfl, rfl,
   fun _ => rfl, fun _ => rfl⟩

/-- C6: the persisted payload is a JSON object with exactly the four
bundle keys, all string-valued (it parses back to exactly the four-key
dictionary), and the native-vault blob is the UTF-16LE encoding of the
identical JSON string that the secret-service variant stores. -/
theorem save_payload_format (sess : Session) (st : WinState) :
    jsonLoads (jsonDumps (saveDict sess)) = some (saveDict sess) ∧
    (saveDict sess).map Prod.fst =
      ["token-type", "access-token", "refresh-token", "expiry-time"] ∧
    (save_windows sess st).vault = some (utf16le (jsonDumps (saveDict sess))) ∧
    save_linux_stored sess = some (jsonDumps (saveDict sess)) :=
  ⟨jsonLoads_jsonDumps _, rfl, rfl, rfl⟩

/-- C7: while the bridge is not initialized, `update_playback_status` and
`update_metadata` return normally and leave the whole bridge state
unchanged — pure no-ops. -/
theorem uninitialized_noop (st : MediaControlsState) (b : Bool)
    (title artist album thumbnail_path : String) (h : st.initialized = false) :
    update_playback_status st b = st ∧
    update_metadata st title artist album thumbnail_path = st := by
  constructor
  · unfold update_playback_status
    rw [if_pos (Or.inl (by simp [h]))]
  · unfold update_metadata
    rw [if_pos (Or.inl (by simp [h]))]

/-- C7 witness: the no-op property at the freshly constructed bridge. -/
theorem uninitialized_noop_witness :
    mediaControlsInit.initialized = false ∧
    update_playback_status mediaControlsInit true = mediaControlsInit ∧
    update_metadata mediaControlsInit "t" "a" "al" "" = mediaControlsInit :=
  ⟨rfl, (uninitialized_noop mediaControlsInit true "t" "a" "al" "" rfl).1,
   (uninitialized_noop mediaControlsInit true "t" "a" "al" "" rfl).2⟩

/-- C8: with notifications enabled and a notifier present, two consecutive
`show_now_playing` calls with track id `"T1"` dispatch exactly one display
call — the second returns `False` and changes nothing — and a following
call with `"T2"` dispatches again and returns `True`. -/
theorem show_now_playing_dedup (st : NotifState)
    (t1 a1 l1 t2 a2 l2 t3 a3 l3 : String)
    (hen : st.enabled = true) (hnot : st.has_notifier = true)
    (hlast : st.last_track_id ≠ some "T1") :
    (show_now_playing st t1 a1 l1 (some "T1")).1 = true ∧
    (show_now_playing st t1 a1 l1 (some "T1")).2.dispatched.length =
      st.dispatched.length + 1 ∧
    (show_now_playing (show_now_playing st t1 a1 l1 (some "T1")).2
        t2 a2 l2 (some "T1")).1 = false ∧
    (show_now_playing (show_now_playing st t1 a1 l1 (some "T1")).2
        t2 a2 l2 (some "T1")).2 = (show_now_playing st t1 a1 l1 (some "T1")).2 ∧
    (show_now_playing (show_now_playing (show_now_playing st t1 a1 l1 (some "T1")).2
        t2 a2 l2 (some "T1")).2 t3 a3 l3 (some "T2")).1 = true ∧
    (show_now_playing (show_now_playing (show_now_playing st t1 a1 l1 (some "T1")).2
        t2 a2 l2 (some "T1")).2 t3 a3 l3 (some "T2")).2.dispatched.length =
      st.dispatched.length + 2 := by
  have h1 := show_now_playing_dispatch st t1 a1 l1 (some "T1") hen hnot
    (fun hx => hlast hx.2.symm)
  have h2 := show_now_playing_suppress
    (NotifState.mk st.enabled st.has_notifier (some "T1")
      (st.dispatched ++ [Toast.mk t1 (a1 ++ (if l1 ≠ "" then " • " ++ l1 else ""))]))
    t2 a2 l2 (some "T1") ⟨by decide, rfl⟩
  have h3 := show_now_playing_dispatch
    (NotifState.mk st.enabled st.has_notifier (some "T1")
      (st.dispatched ++ [Toast.mk t1 (a1 ++ (if l1 ≠ "" then " • " ++ l1 else ""))]))
    t3 a3 l3 (some "T2") hen hnot (fun hx => by simp at hx)
  rw [h1]
  simp only [h2, h3]
  simp [List.length_append]

/-- C8 witness: the deduplication scenario run from a fresh enabled state. -/
theorem show_now_playing_dedup_witness :
    (show_now_playing (NotifState.mk true true none []) "s1" "a" "" (some "T1")).1 = true ∧
    (show_now_playing (NotifState.mk true true none []) "s1" "a" ""
        (some "T1")).2.dispatched.length =
      (NotifState.mk true true none []).dispatched.length + 1 ∧
    (show_now_playing (show_now_playing (NotifState.mk true true none [])
        "s1" "a" "" (some "T1")).2 "s2" "a" "" (some "T1")).1 = false ∧
    (show_now_playing (show_now_playing (NotifState.mk true true none [])
        "s1" "a" "" (some "T1")).2 "s2" "a" "" (some "T1")).2 =
      (show_now_playing (NotifState.mk true true none []) "s1" "a" "" (some "T1")).2 ∧
    (show_now_playing (show_now_playing (show_now_playing
        (NotifState.mk true true none []) "s1" "a" "" (some "T1")).2
        "s2" "a" "" (some "T1")).2 "s3" "a" "" (some "T2")).1 = true ∧
    (show_now_playing (show_now_playing (show_now_playing
        (NotifState.mk true true none []) "s1" "a" "" (some "T1")).2
        "s2" "a" "" (some "T1")).2 "s3" "a" "" (some "T2")).2.dispatched.length =
      (NotifState.mk true true none []).dispatched.length + 2 :=
  show_now_playing_dedup (NotifState.mk true true none [])
    "s1" "a" "" "s2" "a" "" "s3" "a" "" rfl rfl (by simp)

/-- C9: for every registry state and process environment, enabling then
disabling autostart leaves the `"HighTide"` value absent, and disabling
twice returns `True` both times — delete-of-absent is success. -/
theorem startup_roundtrip (e : SysEnv) (reg : RegRun) :
    dictFind (set_startup_enabled true e false
        (set_startup_enabled true e true reg).2).2 "HighTide" = none ∧
    is_startup_enabled true (set_startup_enabled true e false
        (set_startup_enabled true e true reg).2).2 = false ∧
    (set_startup_enabled true e false reg).1 = true ∧
    (set_startup_enabled true e false (set_startup_enabled true e false reg).2).1 =
      true := by
  simp only [set_startup_disable]
  refine ⟨dictFind_regRemove _ _, ?_, by trivial, by trivial⟩
  simp [is_startup_enabled, dictFind_regRemove]

/-- C10: `initialize()` returns `True` on native success and `False` when
winsdk is absent, but on the exception path it falls through and returns
Python `None` (with the bridge left uninitialized) — a value distinct from
the `False` its signature promises. -/
theorem initialize_result_values (st : MediaControlsState) :
    (initializeMediaControls true false st).1 = none ∧
    ((initializeMediaControls true false st).2).initialized = false ∧
    (initializeMediaControls false true st).1 = some false ∧
    (initializeMediaControls false false st).1 = some false ∧
    (initializeMediaControls true true st).1 = some true ∧
    ((initializeMediaControls true true st).2).initialized = true ∧
    (initializeMediaControls true false st).1 ≠ some false :=
  ⟨rfl, rfl, rfl, rfl, rfl, rfl, by simp [initializeMediaControls]⟩

/-- C10 witness: the return-value taxonomy evaluated at the freshly
constructed bridge state. -/
theorem initialize_result_values_witness :
    (initializeMediaControls true false mediaControlsInit).1 = none ∧
    ((initializeMediaControls true false mediaControlsInit).2).initialized = false ∧
    (initializeMediaControls false true mediaControlsInit).1 = some false ∧
    (initializeMediaControls false false mediaControlsInit).1 = some false ∧
    (initializeMediaControls true true mediaControlsInit).1 = some true ∧
    ((initializeMediaControls true true mediaControlsInit).2).initialized = true ∧
    (initializeMediaControls true false mediaControlsInit).1 ≠ some false :=
  initialize_result_values mediaControlsInit

end HighTide
